import Mathlib

/-!
Verification development for `src/Assistant/lib/parser.py` (class
`CertificateParser`).

The embedding is shallow and executable:

* A fetched HTML document is modelled extensionally as a function from CSS
  selector strings to the list of matching nodes (`browser.select`).
* The network is modelled as a fetch environment: for an identifier and an
  attempt index (the value of the `attempts` counter when `browser.open` is
  called) it yields the outcome of that call.  `browser.open` can succeed,
  raise `requests.exceptions.ConnectionError`, raise
  `requests.exceptions.Timeout`, or raise any other exception (which the
  retry loop does not catch).
* Python exceptions that escape a function are modelled with `Except String`;
  the string names the exception.
* Python's three possible return values of `parse` — a `student_dict`,
  `None`, `False` — are the constructors of `ItemOutcome`.
* Logging is a side channel: functions return the structured log lines they
  emit alongside their value.
* Python's float arithmetic on the failure rate is modelled with exact
  rationals; for the quantities involved (a count divided by 1000 times 100)
  the float result coincides with the rational one.
-/

namespace CertificateParser

/-- A node matched by a selector; `string` models BeautifulSoup's
`Tag.string`, which can be `None`. -/
structure Node where
  string : Option String
deriving DecidableEq, Repr

/-- A fetched document: `browser.select` applied to a selector string returns
the list of matching nodes. -/
def Document : Type := String → List Node

/-- Outcome of a single `browser.open` call (line 57, base URL with the
identifier appended, timeout 10):
success with a document, `requests.exceptions.ConnectionError`,
`requests.exceptions.Timeout`, or any other exception (named by a string),
which the `try` block at lines 56-65 does not catch. -/
inductive AttemptResult : Type where
  | ok (doc : Document)
  | connectionError
  | timeout
  | raiseOther (e : String)

/-- The fetch environment: identifier and attempt index (0-based, equal to
the `attempts` counter at the moment of the call) to the outcome of that
`browser.open` call. -/
def FetchEnv : Type := Nat → Nat → AttemptResult

/-- `_retry_attempts = 4` (line 33). -/
def retry_attempts : Nat := 4

/-- `_batch_size = 1000` (line 34). -/
def batch_size : Nat := 1000

/-- `_base_url` (lines 35-36); the fetch URL is this with the identifier
appended. -/
def base_url : String :=
  "http://www.pace.sep.gob.mx/certificadosdgb/certificadoremesadetalles/"

/-- `_base_field` (line 37). -/
def base_field : String := "#_s_com_dgb_sep_domain_CertificadoRemesaDetalle_"

/-- `_getField` (lines 46-47): the f-string concatenating `_base_field`, the
field name, an underscore, the field name again, and the suffix `_id`. -/
def getField (field_name : String) : String :=
  base_field ++ field_name ++ "_" ++ field_name ++ "_id"

/-- The `student_dict` built at lines 89-98, in dict-literal order.  All
selector-derived values are `Tag.string`, hence `Option String`. -/
structure StudentRecord where
  number : Nat
  nombre : Option String
  plantel : Option String
  clave_trabajo : Option String
  rvoe : Option String
  matricula : Option String
  promedio : Option String
  periodo : Option String
  tipo_certificado : Option String
  certificado : Option String
deriving DecidableEq, Repr

/-- The three values `parse` can return: `student_dict` (Found), `None`
(NotFound), `False` (FetchFailed). -/
inductive ItemOutcome : Type where
  | found (d : StudentRecord)
  | notFound
  | fetchFailed
deriving DecidableEq, Repr

/-- Severity of a structured log line. -/
inductive Severity : Type where
  | debug
  | info
  | warning
  | error
deriving DecidableEq, Repr

/-- The structured log lines emitted by `parse` and `retrieveBatch`, one
constructor per `self.logger.<level>(...)` call site. -/
inductive LogLine : Type where
  | failedToRetrieve (code : Nat)
  | timeoutOn (code : Nat)
  | connectionErrorOn (code : Nat)
  | openedUrl (code : Nat)
  | certificateFound (code : Nat)
  | fieldsMissing (code : Nat)
  | parsed (folio : Option String)
  | noCertificate (code : Nat)
  | startingBatch (file_no : Nat)
  | completedBatch (file_no : Nat)
  | failedCount (n : Nat)
  | failureRate (r : ℚ)
deriving DecidableEq, Repr

/-- Severity of each log call site.  `logger.exception` logs at error
severity. -/
def LogLine.severity : LogLine → Severity
  | .failedToRetrieve _ => .warning
  | .timeoutOn _ => .warning
  | .connectionErrorOn _ => .error
  | .openedUrl _ => .debug
  | .certificateFound _ => .debug
  | .fieldsMissing _ => .error
  | .parsed _ => .info
  | .noCertificate _ => .warning
  | .startingBatch _ => .info
  | .completedBatch _ => .info
  | .failedCount _ => .warning
  | .failureRate _ => .warning

/-- True for the two warnings emitted inside the retry loop, one per failed
`browser.open` attempt (lines 61 and 64). -/
def isAttemptWarning : LogLine → Bool
  | .failedToRetrieve _ => true
  | .timeoutOn _ => true
  | _ => false

/-- True for the two batch-failure warnings emitted at lines 138 and 141. -/
def isFailureWarning : LogLine → Bool
  | .failedCount _ => true
  | .failureRate _ => true
  | _ => false

/-- The retry loop of `parse` (lines 52-65): `attempts` is the current value
of the counter, the fuel argument is `retry_attempts - attempts` (the loop
runs while `attempts < self._retry_attempts`).  Returns the document on first
success, `none` when the attempts are exhausted, and propagates any exception
that the two `except` clauses do not catch; alongside, the warning lines
logged for failed attempts. -/
def fetchFrom (env : FetchEnv) (number_code : Nat) :
    Nat → Nat → Except String (Option Document) × List LogLine
  | _, 0 => (Except.ok none, [])
  | attempts, fuel + 1 =>
    match env number_code attempts with
    | AttemptResult.ok doc => (Except.ok (some doc), [])
    | AttemptResult.connectionError =>
      let r := fetchFrom env number_code (attempts + 1) fuel
      (r.1, LogLine.failedToRetrieve number_code :: r.2)
    | AttemptResult.timeout =>
      let r := fetchFrom env number_code (attempts + 1) fuel
      (r.1, LogLine.timeoutOn number_code :: r.2)
    | AttemptResult.raiseOther e => (Except.error e, [])

/-- The `student_dict` construction under `try` (lines 88-106): Python
evaluates the dict values in literal order and the first `field[0]` on an
empty node list raises `IndexError`, caught and turned into `False`; hence
the record is built exactly when every node list is non-empty. -/
def buildRecord (number_code : Nat)
    (nombre plantel clave rvoe matricula promedio periodo tipo cert : List Node) :
    Option StudentRecord :=
  match nombre, plantel, clave, rvoe, matricula, promedio, periodo, tipo, cert with
  | n :: _, p :: _, c :: _, r :: _, m :: _, pr :: _, pe :: _, t :: _, ce :: _ =>
    some { number := number_code
           nombre := n.string
           plantel := p.string
           clave_trabajo := c.string
           rvoe := r.string
           matricula := m.string
           promedio := pr.string
           periodo := pe.string
           tipo_certificado := t.string
           certificado := ce.string }
  | _, _, _, _, _, _, _, _, _ => none

/-- The extraction half of `parse` (lines 73-113), applied to a successfully
fetched document: presence check on the institution-name selector
(`if plantel:`), then the eight remaining `browser.select` calls and the
guarded dict construction. -/
def extractStep (doc : Document) (number_code : Nat) : ItemOutcome × List LogLine :=
  match doc (getField "tmpNombrePlantel") with
  | [] => (ItemOutcome.notFound, [LogLine.noCertificate number_code])
  | p0 :: ps =>
    match buildRecord number_code
        (doc (getField "tmpNombreCompleto"))
        (p0 :: ps)
        (doc (getField "tmpClaveCct"))
        (doc (getField "tmpRvoe"))
        (doc (getField "matricula"))
        (doc (getField "promedio"))
        (doc (getField "tmpPeriodo"))
        (doc (getField "tmpTipoCertificado"))
        (doc (getField "tmpFolioDigital")) with
    | some d =>
      (ItemOutcome.found d,
        [LogLine.certificateFound number_code, LogLine.parsed d.certificado])
    | none =>
      (ItemOutcome.fetchFailed,
        [LogLine.certificateFound number_code, LogLine.fieldsMissing number_code])

/-- `parse` (lines 49-113): retry loop, then `return False` on exhaustion
(line 69), otherwise the extraction step.  The first component is the value
returned by the Python function (or the uncaught exception), the second the
log lines emitted. -/
def parse (env : FetchEnv) (number_code : Nat) : Except String ItemOutcome × List LogLine :=
  match fetchFrom env number_code 0 retry_attempts with
  | (Except.error e, logs) => (Except.error e, logs)
  | (Except.ok none, logs) =>
    (Except.ok ItemOutcome.fetchFailed, logs ++ [LogLine.connectionErrorOn number_code])
  | (Except.ok (some doc), logs) =>
    let r := extractStep doc number_code
    (Except.ok r.1, logs ++ LogLine.openedUrl number_code :: r.2)

/-- Python's `==` comparison of a `parse` return value against the sentinel
`False`: `False == False` is `True`; `None == False` is `False`; a dict never
compares equal to `False` (the comparison falls back to identity and they
are distinct objects). -/
def pyEqFalse : ItemOutcome → Bool
  | ItemOutcome.fetchFailed => true
  | ItemOutcome.notFound => false
  | ItemOutcome.found _ => false

/-- `cert_list.count(False)` (line 135) on a materialised list: the number of
elements that compare `==` to `False`. -/
def countFalse (xs : List ItemOutcome) : Nat := (xs.filter pyEqFalse).length

/-- Constructor test used to state what the failed counter counts. -/
def isFetchFailedB : ItemOutcome → Bool
  | ItemOutcome.fetchFailed => true
  | _ => false

/-- The value bound to `cert_list` after the `with` block (lines 122-131):
either a Python `list` (the sequential branch ran `list(cert_list)` at
line 131) or the still-unmaterialised iterator returned by `executor.map`
(the threaded branch skips `list()`); the iterator's pending results are
carried for faithfulness but are never observable. -/
inductive CertListVal : Type where
  | pylist (xs : List ItemOutcome)
  | generator (pending : List (Except String ItemOutcome × List LogLine))

/-- `cert_list.count(False)` (line 135): Python lists have a `count` method;
the generator returned by `executor.map` has none, so attribute lookup raises
`AttributeError`. -/
def CertListVal.count_False : CertListVal → Except String Nat
  | CertListVal.pylist xs => Except.ok (countFalse xs)
  | CertListVal.generator _ => Except.error "AttributeError"

/-- `list(map(self.parse, cert_range))`: evaluate `parse` on each identifier
in ascending order, propagating the first uncaught exception; collects the
values and concatenates the logs in order. -/
def listMapParse (env : FetchEnv) : List Nat → Except String (List ItemOutcome × List LogLine)
  | [] => Except.ok ([], [])
  | c :: cs =>
    match parse env c with
    | (Except.error e, _) => Except.error e
    | (Except.ok o, logs) =>
      match listMapParse env cs with
      | Except.error e => Except.error e
      | Except.ok (os, ls) => Except.ok (o :: os, logs ++ ls)

/-- `range(range_start, range_start + self._batch_size)` (lines 117-118). -/
def batch_range (file_no : Nat) : List Nat :=
  (List.range batch_size).map (fun i => batch_size * file_no + i)

/-- `retrieveBatch` (lines 115-143).  `map_mode` is `executor.map` when
`threaded` and the builtin `map` otherwise; both return a lazy iterator, and
only the sequential branch materialises it with `list(cert_list)` (lines
130-131).  The finalisation then calls `cert_list.count(False)`, logs the two
failure warnings when `failed_certs >= 1`, and returns `cert_list`.  The
first component of a normal return is the value returned to the caller, the
second the log lines emitted (in the threaded branch the batch never returns
normally, so no logs are reported for it). -/
def retrieveBatch (env : FetchEnv) (file_no : Nat) (threaded : Bool) :
    Except String (CertListVal × List LogLine) :=
  let cert_range := batch_range file_no
  let prepared : Except String (CertListVal × List LogLine) :=
    if threaded then
      Except.ok (CertListVal.generator (cert_range.map (fun c => parse env c)), [])
    else
      match listMapParse env cert_range with
      | Except.error e => Except.error e
      | Except.ok (xs, plogs) => Except.ok (CertListVal.pylist xs, plogs)
  match prepared with
  | Except.error e => Except.error e
  | Except.ok (cert_list, plogs) =>
    let logs := LogLine.startingBatch file_no ::
      (plogs ++ [LogLine.completedBatch file_no])
    match CertListVal.count_False cert_list with
    | Except.error e => Except.error e
    | Except.ok failed_certs =>
      if 1 ≤ failed_certs then
        let failure_rate : ℚ := ((failed_certs : ℚ) / (batch_size : ℚ)) * 100
        Except.ok (cert_list,
          logs ++ [LogLine.failedCount failed_certs, LogLine.failureRate failure_rate])
      else
        Except.ok (cert_list, logs)

/-- The outcome sequence a caller receives from `retrieveBatch`, when the
call returned normally with a materialised list. -/
def returnedOutcomes (r : Except String (CertListVal × List LogLine)) :
    Option (List ItemOutcome) :=
  match r with
  | Except.ok (CertListVal.pylist xs, _) => some xs
  | _ => none

/-- The value component of a normal `retrieveBatch` return. -/
def returnedValue (r : Except String (CertListVal × List LogLine)) : Option CertListVal :=
  match r with
  | Except.ok (v, _) => some v
  | Except.error _ => none

/-- The log lines of a normal `retrieveBatch` return (empty if the call
raised). -/
def returnedLogs (r : Except String (CertListVal × List LogLine)) : List LogLine :=
  match r with
  | Except.ok (_, logs) => logs
  | Except.error _ => []

/-- `True` exactly when `parse` returned a value rather than raising. -/
def okOutcome (r : Except String ItemOutcome) : Bool :=
  match r with
  | Except.ok _ => true
  | Except.error _ => false

/-- The outcome sequence of a sequential batch, as a function of the
per-identifier resolution results. -/
def seqOutcomes (f : Nat → ItemOutcome) (file_no : Nat) : List ItemOutcome :=
  (batch_range file_no).map f

/-- The concatenated `parse` logs of a sequential batch. -/
def seqParseLogs (env : FetchEnv) (file_no : Nat) : List LogLine :=
  (batch_range file_no).flatMap (fun c => (parse env c).2)

/-- The two batch-failure warnings (lines 137-141): emitted only when
`failed_certs >= 1`, with `failure_rate = failed_certs / batch_size * 100`. -/
def failure_warnings (failed_certs : Nat) : List LogLine :=
  if 1 ≤ failed_certs then
    [LogLine.failedCount failed_certs,
     LogLine.failureRate (((failed_certs : ℚ) / (batch_size : ℚ)) * 100)]
  else []

/-- The full log transcript of a sequential batch that returns normally. -/
def seqLogs (env : FetchEnv) (f : Nat → ItemOutcome) (file_no : Nat) : List LogLine :=
  (LogLine.startingBatch file_no ::
    (seqParseLogs env file_no ++ [LogLine.completedBatch file_no])) ++
  failure_warnings (countFalse (seqOutcomes f file_no))

/-- True for the two `browser.open` failure kinds the retry loop catches
(`requests.exceptions.ConnectionError` and `requests.exceptions.Timeout`). -/
def transientB : AttemptResult → Bool
  | AttemptResult.connectionError => true
  | AttemptResult.timeout => true
  | _ => false

/-- True when the attempt result is not an uncaught exception. -/
def noRaiseB : AttemptResult → Bool
  | AttemptResult.raiseOther _ => false
  | _ => true

/-- The warning logged for a failed attempt of the given transient kind
(lines 61 and 64). -/
def transientWarn (code : Nat) : AttemptResult → LogLine
  | AttemptResult.timeout => LogLine.timeoutOn code
  | _ => LogLine.failedToRetrieve code

/-- `Tag.string` of the first matched node, if any. -/
def headString (l : List Node) : Option String :=
  match l with
  | [] => none
  | nd :: _ => nd.string

/-- The nine selectors the extractor consults (lines 73 and 78-85), in
dict-literal order of the fields they populate. -/
def requiredSelectors : List String :=
  [getField "tmpNombreCompleto", getField "tmpNombrePlantel", getField "tmpClaveCct",
   getField "tmpRvoe", getField "matricula", getField "promedio", getField "tmpPeriodo",
   getField "tmpTipoCertificado", getField "tmpFolioDigital"]

/-- The selectors the extractor consults besides the institution-name
(presence-check) selector: eight of them. -/
def otherSelectors : List String :=
  [getField "tmpNombreCompleto", getField "tmpClaveCct", getField "tmpRvoe",
   getField "matricula", getField "promedio", getField "tmpPeriodo",
   getField "tmpTipoCertificado", getField "tmpFolioDigital"]

/-! ### Concrete fixtures used by witnesses and counterexamples -/

/-- A fetched page with no certificate data: every selector matches nothing. -/
def emptyDoc : Document := fun _ => []

/-- A fetched page carrying a full certificate: folio selector yields
"A123", the remaining required selectors yield a value node, anything else
(for example the dropped `idAlumno` selector) matches nothing. -/
def docFull : Document := fun s =>
  if s = getField "tmpFolioDigital" then [{ string := some "A123" }]
  else if requiredSelectors.contains s then [{ string := some "V" }]
  else []

/-- A malformed page: the institution-name selector matches but every other
selector matches nothing. -/
def docShape : Document := fun s =>
  if s = getField "tmpNombrePlantel" then [{ string := some "Prepa" }] else []

/-- Every fetch succeeds immediately and returns the empty page. -/
def envOkEmpty : FetchEnv := fun _ _ => AttemptResult.ok emptyDoc

/-- Every fetch attempt fails with a connection error. -/
def envConnFail : FetchEnv := fun _ _ => AttemptResult.connectionError

/-- Every fetch attempt raises an exception the retry loop does not catch. -/
def envRaise : FetchEnv := fun _ _ => AttemptResult.raiseOther "TooManyRedirects"

/-- Identifiers below 50 always fail with a connection error; the rest
succeed with the empty page (in batch 0: exactly 50 failures out of 1000). -/
def env50 : FetchEnv := fun c _ =>
  if c < 50 then AttemptResult.connectionError else AttemptResult.ok emptyDoc

/-- The first three attempts time out, the fourth succeeds with a full
certificate page. -/
def envRetryFull : FetchEnv := fun _ k =>
  if k < 3 then AttemptResult.timeout else AttemptResult.ok docFull

/-- The first three attempts time out, the fourth succeeds with a malformed
page. -/
def envRetryShape : FetchEnv := fun _ k =>
  if k < 3 then AttemptResult.timeout else AttemptResult.ok docShape

/-- Per-identifier outcome under `env50`. -/
def f50 : Nat → ItemOutcome := fun c =>
  if c < 50 then ItemOutcome.fetchFailed else ItemOutcome.notFound

/-! ### Helper lemmas -/

lemma fetchFrom_ok_step (env : FetchEnv) (c attempts fuel : Nat) (doc : Document)
    (h : env c attempts = AttemptResult.ok doc) :
    fetchFrom env c attempts (fuel + 1) = (Except.ok (some doc), []) := by
  unfold fetchFrom
  rw [h]

lemma fetchFrom_transient_step (env : FetchEnv) (c attempts fuel : Nat)
    (h : transientB (env c attempts) = true) :
    fetchFrom env c attempts (fuel + 1) =
      ((fetchFrom env c (attempts + 1) fuel).1,
       transientWarn c (env c attempts) :: (fetchFrom env c (attempts + 1) fuel).2) := by
  conv_lhs => unfold fetchFrom
  rcases henv : env c attempts with doc | _ | _ | e
  · rw [henv] at h; simp [transientB] at h
  · rfl
  · rfl
  · rw [henv] at h; simp [transientB] at h

lemma fetchFrom_agree (env env' : FetchEnv) (c : Nat) :
    ∀ fuel attempts, (∀ k, attempts ≤ k → k < attempts + fuel → env' c k = env c k) →
      fetchFrom env' c attempts fuel = fetchFrom env c attempts fuel := by
  intro fuel
  induction fuel with
  | zero => intro a _; rfl
  | succ fu ih =>
    intro a h
    unfold fetchFrom
    rw [h a (Nat.le_refl a) (by omega)]
    cases env c a with
    | ok doc => rfl
    | connectionError => rw [ih (a + 1) (fun k h1 h2 => h k (by omega) (by omega))]
    | timeout => rw [ih (a + 1) (fun k h1 h2 => h k (by omega) (by omega))]
    | raiseOther e => rfl

lemma parse_agree (env env' : FetchEnv) (c : Nat)
    (h : ∀ k, k < retry_attempts → env' c k = env c k) :
    parse env' c = parse env c := by
  unfold parse
  rw [fetchFrom_agree env env' c retry_attempts 0 (fun k _ h2 => h k (by omega))]

lemma isAttemptWarning_transientWarn (c : Nat) (r : AttemptResult) :
    isAttemptWarning (transientWarn c r) = true := by
  cases r <;> rfl

lemma fetchFrom_no_failureWarning (env : FetchEnv) (c : Nat) :
    ∀ fuel attempts l, l ∈ (fetchFrom env c attempts fuel).2 → isFailureWarning l = false := by
  intro fuel
  induction fuel with
  | zero => intro a l hl; simp [fetchFrom] at hl
  | succ fu ih =>
    intro a l hl
    unfold fetchFrom at hl
    rcases henv : env c a with doc | _ | _ | e
    · rw [henv] at hl; simp at hl
    · rw [henv] at hl
      simp only [List.mem_cons] at hl
      rcases hl with rfl | hl
      · rfl
      · exact ih (a + 1) l hl
    · rw [henv] at hl
      simp only [List.mem_cons] at hl
      rcases hl with rfl | hl
      · rfl
      · exact ih (a + 1) l hl
    · rw [henv] at hl; simp at hl

lemma extractStep_no_failureWarning (doc : Document) (c : Nat) :
    ∀ l ∈ (extractStep doc c).2, isFailureWarning l = false := by
  unfold extractStep
  split
  · intro l hl
    simp only [List.mem_singleton] at hl
    subst hl; rfl
  · split
    · intro l hl
      simp only [List.mem_cons, List.mem_singleton] at hl
      rcases hl with rfl | rfl | h
      · rfl
      · rfl
      · simp at h
    · intro l hl
      simp only [List.mem_cons, List.mem_singleton] at hl
      rcases hl with rfl | rfl | h
      · rfl
      · rfl
      · simp at h

lemma parse_no_failureWarning (env : FetchEnv) (c : Nat) :
    ∀ l ∈ (parse env c).2, isFailureWarning l = false := by
  unfold parse
  split
  · next e logs heq =>
    intro l hl
    have : l ∈ (fetchFrom env c 0 retry_attempts).2 := by rw [heq]; exact hl
    exact fetchFrom_no_failureWarning env c retry_attempts 0 l this
  · next logs heq =>
    intro l hl
    simp only [List.mem_append, List.mem_singleton] at hl
    rcases hl with hl | rfl
    · have : l ∈ (fetchFrom env c 0 retry_attempts).2 := by rw [heq]; exact hl
      exact fetchFrom_no_failureWarning env c retry_attempts 0 l this
    · rfl
  · next doc logs heq =>
    intro l hl
    simp only [List.mem_append, List.mem_cons] at hl
    rcases hl with hl | rfl | hl
    · have : l ∈ (fetchFrom env c 0 retry_attempts).2 := by rw [heq]; exact hl
      exact fetchFrom_no_failureWarning env c retry_attempts 0 l this
    · rfl
    · exact extractStep_no_failureWarning doc c l hl

lemma listMapParse_eq (env : FetchEnv) (f : Nat → ItemOutcome)
    (h : ∀ c, (parse env c).1 = Except.ok (f c)) :
    ∀ ids : List Nat,
      listMapParse env ids =
        Except.ok (ids.map f, ids.flatMap (fun c => (parse env c).2)) := by
  intro ids
  induction ids with
  | nil => rfl
  | cons c cs ih =>
    have hc : parse env c = (Except.ok (f c), (parse env c).2) := by
      rw [← h c]
    unfold listMapParse
    rw [hc, ih]
    rfl

lemma retrieveBatch_threaded (env : FetchEnv) (file_no : Nat) :
    retrieveBatch env file_no true = Except.error "AttributeError" := rfl

lemma retrieveBatch_seq (env : FetchEnv) (f : Nat → ItemOutcome) (file_no : Nat)
    (h : ∀ c, (parse env c).1 = Except.ok (f c)) :
    retrieveBatch env file_no false =
      Except.ok (CertListVal.pylist (seqOutcomes f file_no), seqLogs env f file_no) := by
  have hl := listMapParse_eq env f h (batch_range file_no)
  simp only [retrieveBatch, Bool.false_eq_true, if_false, hl, CertListVal.count_False]
  unfold seqLogs seqOutcomes seqParseLogs failure_warnings
  by_cases hk : 1 ≤ countFalse ((batch_range file_no).map f)
  · simp [hk]
  · simp [hk]

lemma seqLogs_filter (env : FetchEnv) (f : Nat → ItemOutcome) (file_no : Nat) :
    (seqLogs env f file_no).filter isFailureWarning =
      failure_warnings (countFalse (seqOutcomes f file_no)) := by
  unfold seqLogs
  rw [List.filter_append]
  have h1 : (LogLine.startingBatch file_no ::
      (seqParseLogs env file_no ++ [LogLine.completedBatch file_no])).filter
        isFailureWarning = [] := by
    rw [List.filter_eq_nil_iff]
    intro l hl
    simp only [List.mem_cons, List.mem_append, List.mem_singleton, List.not_mem_nil,
      or_false] at hl
    rcases hl with rfl | hl | rfl
    · simp [isFailureWarning]
    · unfold seqParseLogs at hl
      rw [List.mem_flatMap] at hl
      obtain ⟨c, _, hc⟩ := hl
      simp [parse_no_failureWarning env c l hc]
    · simp [isFailureWarning]
  rw [h1]
  unfold failure_warnings
  by_cases hk : 1 ≤ countFalse (seqOutcomes f file_no)
  · simp [hk, isFailureWarning]
  · simp [hk]

lemma buildRecord_eq_none (code : Nat)
    (n p cl r m pr pe t ce : List Node)
    (h : n = [] ∨ cl = [] ∨ r = [] ∨ m = [] ∨ pr = [] ∨ pe = [] ∨ t = [] ∨ ce = []) :
    buildRecord code n p cl r m pr pe t ce = none := by
  unfold buildRecord
  split
  · simp_all
  · rfl

lemma isAttemptWarning_openedUrl (c : Nat) :
    isAttemptWarning (LogLine.openedUrl c) = false := rfl

lemma isAttemptWarning_connErrorOn (c : Nat) :
    isAttemptWarning (LogLine.connectionErrorOn c) = false := rfl

lemma extractStep_filter_attempt (doc : Document) (c : Nat) :
    (extractStep doc c).2.filter isAttemptWarning = [] := by
  rw [List.filter_eq_nil_iff]
  unfold extractStep
  split
  · intro l hl
    simp only [List.mem_singleton] at hl
    subst hl; simp [isAttemptWarning]
  · split
    · intro l hl
      simp only [List.mem_cons, List.mem_singleton, List.not_mem_nil, or_false] at hl
      rcases hl with rfl | rfl <;> simp [isAttemptWarning]
    · intro l hl
      simp only [List.mem_cons, List.mem_singleton, List.not_mem_nil, or_false] at hl
      rcases hl with rfl | rfl <;> simp [isAttemptWarning]

lemma fetchFrom_no_error (env : FetchEnv) (c : Nat) :
    ∀ fuel attempts,
      (∀ k, attempts ≤ k → k < attempts + fuel → noRaiseB (env c k) = true) →
      ∀ e, (fetchFrom env c attempts fuel).1 ≠ Except.error e := by
  intro fuel
  induction fuel with
  | zero => intro a _ e; simp [fetchFrom]
  | succ fu ih =>
    intro a h e
    unfold fetchFrom
    rcases henv : env c a with doc | _ | _ | ex
    · simp
    · exact ih (a + 1) (fun k h1 h2 => h k (by omega) (by omega)) e
    · exact ih (a + 1) (fun k h1 h2 => h k (by omega) (by omega)) e
    · have hk := h a (Nat.le_refl a) (by omega)
      rw [henv] at hk
      simp [noRaiseB] at hk

lemma parse_envOkEmpty (c : Nat) :
    parse envOkEmpty c =
      (Except.ok ItemOutcome.notFound,
       [LogLine.openedUrl c, LogLine.noCertificate c]) := rfl

lemma parse_envConnFail (c : Nat) :
    parse envConnFail c =
      (Except.ok ItemOutcome.fetchFailed,
       [LogLine.failedToRetrieve c, LogLine.failedToRetrieve c, LogLine.failedToRetrieve c,
        LogLine.failedToRetrieve c, LogLine.connectionErrorOn c]) := rfl

lemma parse_env50 (c : Nat) : (parse env50 c).1 = Except.ok (f50 c) := by
  by_cases hc : c < 50
  · rw [parse_agree envConnFail env50 c (fun k _ => by simp [env50, envConnFail, hc])]
    simp [parse_envConnFail, f50, hc]
  · rw [parse_agree envOkEmpty env50 c (fun k _ => by simp [env50, envOkEmpty, hc])]
    simp [parse_envOkEmpty, f50, hc]

lemma countFalse_map_notFound (l : List Nat) :
    countFalse (l.map fun _ => ItemOutcome.notFound) = 0 := by
  induction l with
  | nil => rfl
  | cons a t ih => simp [countFalse, pyEqFalse, List.filter_cons, ih]

lemma countFalse_map_fetchFailed (l : List Nat) :
    countFalse (l.map fun _ => ItemOutcome.fetchFailed) = l.length := by
  induction l with
  | nil => rfl
  | cons a t ih => simp [countFalse, pyEqFalse, List.filter_cons, ih]

/-! ### Claim theorems -/

/-- C1: the spec claims `runBatch(b, true)` and `runBatch(b, false)` return
outcome sequences with identical Item Outcome values at every position.  The
code cannot satisfy this: under an environment where every fetch succeeds
with a certificate-free page, the sequential call at batch 0 returns the
1000 NotFound outcomes, while the threaded call raises `AttributeError`
(`executor.map` returns a generator, the `if not threaded` guard skips
`list()`, and generators have no `count` method), so the threaded mode never
returns an outcome sequence at all. -/
theorem c1_threaded_crashes_instead_of_matching_sequential :
    retrieveBatch envOkEmpty 0 true = Except.error "AttributeError" ∧
    returnedOutcomes (retrieveBatch envOkEmpty 0 false) =
      some (seqOutcomes (fun _ => ItemOutcome.notFound) 0) := by
  constructor
  · exact retrieveBatch_threaded envOkEmpty 0
  · rw [retrieveBatch_seq envOkEmpty (fun _ => ItemOutcome.notFound) 0
      (fun c => by rw [parse_envOkEmpty])]
    rfl

/-- C2: the spec claims the batch operation never raises when every item
resolution returns an outcome.  In threaded mode the code always raises
`AttributeError` — for every fetch environment and batch index, regardless
of the per-item outcomes — because `cert_list` is still the `executor.map`
generator when `cert_list.count(False)` is evaluated. -/
theorem c2_threaded_raises_for_every_batch (env : FetchEnv) (file_no : Nat) :
    retrieveBatch env file_no true = Except.error "AttributeError" :=
  retrieveBatch_threaded env file_no

/-- C3 (amended): in sequential mode, when every per-identifier resolution
returns an outcome, `retrieveBatch` returns the outcomes of identifiers
`batch_size * b` through `batch_size * b + batch_size - 1` in ascending
order: the sequence has length exactly `batch_size` and position `i` holds
the outcome of identifier `batch_size * b + i`.  (In concurrent mode the
call raises before returning any sequence; see the counterexample.) -/
theorem c3_sequential_range_length_order (env : FetchEnv) (f : Nat → ItemOutcome)
    (b : Nat) (h : ∀ c, (parse env c).1 = Except.ok (f c)) :
    returnedOutcomes (retrieveBatch env b false) = some (seqOutcomes f b) ∧
    (seqOutcomes f b).length = batch_size ∧
    ∀ i, i < batch_size → (seqOutcomes f b)[i]? = some (f (batch_size * b + i)) := by
  refine ⟨?_, ?_, ?_⟩
  · rw [retrieveBatch_seq env f b h]
    rfl
  · simp [seqOutcomes, batch_range]
  · intro i hi
    simp [seqOutcomes, batch_range, List.getElem?_map, List.getElem?_range, hi]

/-- C3 witness: concrete instance of the amended claim with every identifier
resolving to FetchFailed. -/
theorem c3_sequential_range_length_order_witness :
    returnedOutcomes (retrieveBatch envConnFail 0 false) =
      some (seqOutcomes (fun _ => ItemOutcome.fetchFailed) 0) :=
  (c3_sequential_range_length_order envConnFail (fun _ => ItemOutcome.fetchFailed) 0
    (fun c => by rw [parse_envConnFail])).1

/-- C3 counterexample: as stated the claim covers both execution modes
(`runBatch(b, _)`), but at batch 1 in concurrent mode the call raises
`AttributeError` instead of returning a length-1000 outcome sequence. -/
theorem c3_threaded_returns_no_sequence_counterexample :
    retrieveBatch envOkEmpty 1 true = Except.error "AttributeError" :=
  retrieveBatch_threaded envOkEmpty 1

/-- C4 (amended): when the first three fetch attempts fail transiently,
`parse` consults the environment at most `retry_attempts = 4` times
(agreement conjunct); if the fourth attempt succeeds, the outcome is the
Record Extractor's outcome on the fetched document — Found or NotFound
unless the page has a shape failure — with exactly 3 per-attempt warnings
logged; if the fourth attempt also fails transiently, the outcome is
FetchFailed with exactly 4 per-attempt warnings logged. -/
theorem c4_retry_ceiling (env : FetchEnv) (c : Nat)
    (h3 : ∀ k, k < 3 → transientB (env c k) = true) :
    (∀ env' : FetchEnv, (∀ k, k < retry_attempts → env' c k = env c k) →
      parse env' c = parse env c) ∧
    (∀ doc : Document, env c 3 = AttemptResult.ok doc →
      (parse env c).1 = Except.ok (extractStep doc c).1 ∧
      ((parse env c).2.filter isAttemptWarning).length = 3) ∧
    (transientB (env c 3) = true →
      (parse env c).1 = Except.ok ItemOutcome.fetchFailed ∧
      ((parse env c).2.filter isAttemptWarning).length = 4) := by
  have s0 : fetchFrom env c 0 retry_attempts =
      ((fetchFrom env c 1 3).1, transientWarn c (env c 0) :: (fetchFrom env c 1 3).2) :=
    fetchFrom_transient_step env c 0 3 (h3 0 (by omega))
  have s1 : fetchFrom env c 1 3 =
      ((fetchFrom env c 2 2).1, transientWarn c (env c 1) :: (fetchFrom env c 2 2).2) :=
    fetchFrom_transient_step env c 1 2 (h3 1 (by omega))
  have s2 : fetchFrom env c 2 2 =
      ((fetchFrom env c 3 1).1, transientWarn c (env c 2) :: (fetchFrom env c 3 1).2) :=
    fetchFrom_transient_step env c 2 1 (h3 2 (by omega))
  refine ⟨fun env' hagree => parse_agree env env' c hagree, ?_, ?_⟩
  · intro doc hdoc
    have t1 : fetchFrom env c 3 1 = (Except.ok (some doc), []) :=
      fetchFrom_ok_step env c 3 0 doc hdoc
    have hfull : fetchFrom env c 0 retry_attempts =
        (Except.ok (some doc),
         [transientWarn c (env c 0), transientWarn c (env c 1),
          transientWarn c (env c 2)]) := by
      rw [s0, s1, s2, t1]
    have hp : parse env c =
        (Except.ok (extractStep doc c).1,
         [transientWarn c (env c 0), transientWarn c (env c 1),
          transientWarn c (env c 2)] ++ LogLine.openedUrl c :: (extractStep doc c).2) := by
      unfold parse
      rw [hfull]
    constructor
    · rw [hp]
    · rw [hp]
      simp [List.filter_append, List.filter_cons, isAttemptWarning_transientWarn,
        isAttemptWarning_openedUrl, extractStep_filter_attempt]
  · intro ht
    have t1 : fetchFrom env c 3 1 =
        ((fetchFrom env c 4 0).1,
         transientWarn c (env c 3) :: (fetchFrom env c 4 0).2) :=
      fetchFrom_transient_step env c 3 0 ht
    have hfull : fetchFrom env c 0 retry_attempts =
        (Except.ok none,
         [transientWarn c (env c 0), transientWarn c (env c 1),
          transientWarn c (env c 2), transientWarn c (env c 3)]) := by
      rw [s0, s1, s2, t1]
      rfl
    have hp : parse env c =
        (Except.ok ItemOutcome.fetchFailed,
         [transientWarn c (env c 0), transientWarn c (env c 1),
          transientWarn c (env c 2), transientWarn c (env c 3)] ++
           [LogLine.connectionErrorOn c]) := by
      unfold parse
      rw [hfull]
    constructor
    · rw [hp]
    · rw [hp]
      simp [List.filter_append, List.filter_cons, isAttemptWarning_transientWarn,
        isAttemptWarning_connErrorOn]

/-- C4 witness: three timeouts followed by a successful fetch of a full
certificate page, at identifier 7. -/
theorem c4_retry_ceiling_witness :
    (parse envRetryFull 7).1 = Except.ok (extractStep docFull 7).1 ∧
    ((parse envRetryFull 7).2.filter isAttemptWarning).length = 3 :=
  (c4_retry_ceiling envRetryFull 7 (by decide)).2.1 docFull rfl

/-- C4 counterexample: the claim says that when the first three attempts
fail transiently and the fourth succeeds, `resolve` returns Found or
NotFound (not FetchFailed).  With three timeouts and a fourth attempt that
succeeds with a malformed page (institution-name present, every other
selector empty), `parse` returns `False`, i.e. FetchFailed. -/
theorem c4_fourth_attempt_success_can_still_fetchFail_counterexample :
    (parse envRetryShape 7).1 = Except.ok ItemOutcome.fetchFailed ∧
    transientB (envRetryShape 7 0) = true ∧
    transientB (envRetryShape 7 1) = true ∧
    transientB (envRetryShape 7 2) = true ∧
    envRetryShape 7 3 = AttemptResult.ok docShape :=
  ⟨rfl, rfl, rfl, rfl, rfl⟩

/-- C5 (amended): extraction is all-or-nothing.  If the institution-name
selector matches no node the outcome is NotFound; if it matches but any one
of the other eight selectors the extractor consults resolves to no node the
outcome is FetchFailed; if all nine consulted selectors match, the outcome
is Found with the full ten-field record (the identifier plus the nine
extracted values, including the certificate folio) — a partial record is
never produced. -/
theorem c5_all_or_nothing_extraction (doc : Document) (c : Nat) :
    (doc (getField "tmpNombrePlantel") = [] →
      (extractStep doc c).1 = ItemOutcome.notFound) ∧
    (doc (getField "tmpNombrePlantel") ≠ [] →
      ∀ s ∈ otherSelectors, doc s = [] →
        (extractStep doc c).1 = ItemOutcome.fetchFailed) ∧
    ((∀ s ∈ requiredSelectors, doc s ≠ []) →
      (extractStep doc c).1 = ItemOutcome.found
        { number := c
          nombre := headString (doc (getField "tmpNombreCompleto"))
          plantel := headString (doc (getField "tmpNombrePlantel"))
          clave_trabajo := headString (doc (getField "tmpClaveCct"))
          rvoe := headString (doc (getField "tmpRvoe"))
          matricula := headString (doc (getField "matricula"))
          promedio := headString (doc (getField "promedio"))
          periodo := headString (doc (getField "tmpPeriodo"))
          tipo_certificado := headString (doc (getField "tmpTipoCertificado"))
          certificado := headString (doc (getField "tmpFolioDigital")) }) := by
  refine ⟨?_, ?_, ?_⟩
  · intro hp
    unfold extractStep
    rw [hp]
  · intro hp s hs hdoc
    rcases hq : doc (getField "tmpNombrePlantel") with _ | ⟨p0, ps⟩
    · exact absurd hq hp
    · have hb : buildRecord c (doc (getField "tmpNombreCompleto")) (p0 :: ps)
          (doc (getField "tmpClaveCct")) (doc (getField "tmpRvoe"))
          (doc (getField "matricula")) (doc (getField "promedio"))
          (doc (getField "tmpPeriodo")) (doc (getField "tmpTipoCertificado"))
          (doc (getField "tmpFolioDigital")) = none := by
        apply buildRecord_eq_none
        simp only [otherSelectors, List.mem_cons, List.not_mem_nil, or_false] at hs
        rcases hs with rfl | rfl | rfl | rfl | rfl | rfl | rfl | rfl <;> simp [hdoc]
      unfold extractStep
      rw [hq]
      dsimp only
      rw [hb]
  · intro hall
    obtain ⟨a1, l1, e1⟩ := List.exists_cons_of_ne_nil
      (hall (getField "tmpNombreCompleto") (by simp [requiredSelectors]))
    obtain ⟨a2, l2, e2⟩ := List.exists_cons_of_ne_nil
      (hall (getField "tmpNombrePlantel") (by simp [requiredSelectors]))
    obtain ⟨a3, l3, e3⟩ := List.exists_cons_of_ne_nil
      (hall (getField "tmpClaveCct") (by simp [requiredSelectors]))
    obtain ⟨a4, l4, e4⟩ := List.exists_cons_of_ne_nil
      (hall (getField "tmpRvoe") (by simp [requiredSelectors]))
    obtain ⟨a5, l5, e5⟩ := List.exists_cons_of_ne_nil
      (hall (getField "matricula") (by simp [requiredSelectors]))
    obtain ⟨a6, l6, e6⟩ := List.exists_cons_of_ne_nil
      (hall (getField "promedio") (by simp [requiredSelectors]))
    obtain ⟨a7, l7, e7⟩ := List.exists_cons_of_ne_nil
      (hall (getField "tmpPeriodo") (by simp [requiredSelectors]))
    obtain ⟨a8, l8, e8⟩ := List.exists_cons_of_ne_nil
      (hall (getField "tmpTipoCertificado") (by simp [requiredSelectors]))
    obtain ⟨a9, l9, e9⟩ := List.exists_cons_of_ne_nil
      (hall (getField "tmpFolioDigital") (by simp [requiredSelectors]))
    simp [extractStep, buildRecord, headString, e1, e2, e3, e4, e5, e6, e7, e8, e9]

/-- C5 witness: the full-page fixture at identifier 37 extracts the complete
ten-field record with folio "A123". -/
theorem c5_all_or_nothing_extraction_witness :
    (extractStep docFull 37).1 = ItemOutcome.found
      { number := 37
        nombre := some "V"
        plantel := some "V"
        clave_trabajo := some "V"
        rvoe := some "V"
        matricula := some "V"
        promedio := some "V"
        periodo := some "V"
        tipo_certificado := some "V"
        certificado := some "A123" } :=
  (c5_all_or_nothing_extraction docFull 37).2.2 (by decide)

/-- C5 counterexample: the claim speaks of "the other nine required field
selectors" besides the institution-name selector (ten selectors in total,
matching the spec's "look up all ten field selectors").  The extractor
consults only nine selectors — eight besides the institution name; the tenth
record field is the identifier itself and the historical tenth selector
(`idAlumno`, the CURP) is commented out.  A document on which exactly those
nine selectors match (and any other selector, such as the `idAlumno` one,
matches nothing) yields a full Found record, so there is no ninth "other"
selector whose absence is required to fail extraction. -/
theorem c5_only_eight_other_selectors_counterexample :
    requiredSelectors.length = 9 ∧
    otherSelectors.length = 8 ∧
    docFull (getField "idAlumno") = [] ∧
    (extractStep docFull 37).1 = ItemOutcome.found
      { number := 37
        nombre := some "V"
        plantel := some "V"
        clave_trabajo := some "V"
        rvoe := some "V"
        matricula := some "V"
        promedio := some "V"
        periodo := some "V"
        tipo_certificado := some "V"
        certificado := some "A123" } :=
  ⟨rfl, rfl, by decide, by decide⟩

/-- C6 (amended): the value `retrieveBatch` returns to the caller is the
ordered Item Outcome sequence alone; the failed count and the failure rate
are computed during finalisation and emitted on the log side channel, not
included in the returned value. -/
theorem c6_return_is_outcome_sequence_only (env : FetchEnv) (f : Nat → ItemOutcome)
    (file_no : Nat) (h : ∀ c, (parse env c).1 = Except.ok (f c)) :
    returnedValue (retrieveBatch env file_no false) =
      some (CertListVal.pylist (seqOutcomes f file_no)) ∧
    returnedLogs (retrieveBatch env file_no false) = seqLogs env f file_no := by
  rw [retrieveBatch_seq env f file_no h]
  exact ⟨rfl, rfl⟩

/-- C6 witness: concrete instance at batch 2 with every identifier resolving
to NotFound. -/
theorem c6_return_is_outcome_sequence_only_witness :
    returnedValue (retrieveBatch envOkEmpty 2 false) =
      some (CertListVal.pylist (seqOutcomes (fun _ => ItemOutcome.notFound) 2)) :=
  (c6_return_is_outcome_sequence_only envOkEmpty (fun _ => ItemOutcome.notFound) 2
    (fun c => by rw [parse_envOkEmpty])).1

/-- C6 counterexample: the claim says the returned Batch Result contains the
derived counts and a failure rate in the returned value, not only in logs.
At batch 0 with every fetch failing, the value returned to the caller is
exactly the bare list of 1000 FetchFailed outcomes, while the count (1000)
and the rate (100%) appear only among the logged lines. -/
theorem c6_counts_only_in_logs_counterexample :
    returnedValue (retrieveBatch envConnFail 0 false) =
      some (CertListVal.pylist
        ((batch_range 0).map fun _ => ItemOutcome.fetchFailed)) ∧
    (returnedLogs (retrieveBatch envConnFail 0 false)).filter isFailureWarning =
      [LogLine.failedCount 1000, LogLine.failureRate 100] := by
  have h : ∀ c, (parse envConnFail c).1 =
      Except.ok ((fun _ => ItemOutcome.fetchFailed) c) :=
    fun c => by rw [parse_envConnFail]
  rw [retrieveBatch_seq envConnFail (fun _ => ItemOutcome.fetchFailed) 0 h]
  have hk : countFalse (seqOutcomes (fun _ => ItemOutcome.fetchFailed) 0) = 1000 := by
    show countFalse ((batch_range 0).map fun _ => ItemOutcome.fetchFailed) = 1000
    rw [countFalse_map_fetchFailed]
    simp [batch_range, batch_size]
  constructor
  · rfl
  · show (seqLogs envConnFail (fun _ => ItemOutcome.fetchFailed) 0).filter
      isFailureWarning = _
    rw [seqLogs_filter, hk]
    norm_num [failure_warnings, batch_size]

/-- C7 (amended): after a sequential batch in which every item resolution
returns an outcome, the failure warnings logged are exactly: when the number
of FetchFailed outcomes is at least 1, one warning with that count and one
with the failure percentage `failed / batch_size * 100`; when there are zero
failures, no failure warning (in particular no rate) is logged at all. -/
theorem c7_failure_warnings_logged (env : FetchEnv) (f : Nat → ItemOutcome)
    (file_no : Nat) (h : ∀ c, (parse env c).1 = Except.ok (f c)) :
    (returnedLogs (retrieveBatch env file_no false)).filter isFailureWarning =
      (if 1 ≤ countFalse (seqOutcomes f file_no) then
        [LogLine.failedCount (countFalse (seqOutcomes f file_no)),
         LogLine.failureRate
           (((countFalse (seqOutcomes f file_no) : ℚ) / (batch_size : ℚ)) * 100)]
      else []) := by
  rw [retrieveBatch_seq env f file_no h]
  show (seqLogs env f file_no).filter isFailureWarning = _
  rw [seqLogs_filter]
  rfl

set_option maxRecDepth 100000 in
/-- C7 witness: 50 of the 1000 identifiers of batch 0 exhaust their retries;
the logged warnings carry the count 50 and the rate 5%. -/
theorem c7_failure_warnings_logged_witness :
    (returnedLogs (retrieveBatch env50 0 false)).filter isFailureWarning =
      [LogLine.failedCount 50, LogLine.failureRate 5] := by
  rw [c7_failure_warnings_logged env50 f50 0 parse_env50]
  have hk : countFalse (seqOutcomes f50 0) = 50 := by decide
  rw [hk]
  norm_num [batch_size]

/-- C7 counterexample: the claim says that with zero failures the reported
failure rate is 0%.  With every identifier of batch 2 resolving to NotFound
(zero failures) the code logs no failure warning at all — no count and no
rate line, rather than a 0% line. -/
theorem c7_zero_failures_nothing_reported_counterexample :
    (returnedLogs (retrieveBatch envOkEmpty 2 false)).filter isFailureWarning = [] ∧
    countFalse (seqOutcomes (fun _ => ItemOutcome.notFound) 2) = 0 := by
  have hk : countFalse (seqOutcomes (fun _ => ItemOutcome.notFound) 2) = 0 := by
    show countFalse ((batch_range 2).map fun _ => ItemOutcome.notFound) = 0
    rw [countFalse_map_notFound]
  refine ⟨?_, hk⟩
  rw [retrieveBatch_seq envOkEmpty (fun _ => ItemOutcome.notFound) 2
    (fun c => by rw [parse_envOkEmpty])]
  show (seqLogs envOkEmpty (fun _ => ItemOutcome.notFound) 2).filter
    isFailureWarning = []
  rw [seqLogs_filter, hk]
  rfl

/-- C8: the Field Locator is a pure total function over field names whose
result is the fixed base prefix, an underscore, the field token, an
underscore, the field token again, and the suffix "_id" — the field token
appears exactly twice. -/
theorem c8_selector_convention (field_name : String) :
    getField field_name =
      "#_s_com_dgb_sep_domain_CertificadoRemesaDetalle" ++ "_" ++ field_name ++
        "_" ++ field_name ++ "_id" := by
  have hb : base_field =
      "#_s_com_dgb_sep_domain_CertificadoRemesaDetalle" ++ "_" := by decide
  show base_field ++ field_name ++ "_" ++ field_name ++ "_id" = _
  rw [hb]

/-- C9 (amended): `resolve` returns exactly one of the three outcome values
(Found, NotFound, FetchFailed) whenever every fetch attempt either succeeds
or fails with one of the two caught transient kinds (connection error,
timeout); a fetch error of any other kind propagates as an uncaught
exception (see the counterexample). -/
theorem c9_total_over_three_outcomes (env : FetchEnv) (c : Nat)
    (h : ∀ k, k < retry_attempts → noRaiseB (env c k) = true) :
    okOutcome (parse env c).1 = true := by
  unfold parse
  split
  · next e logs heq =>
    exfalso
    exact fetchFrom_no_error env c retry_attempts 0 (fun k h1 h2 => h k (by omega)) e
      (by rw [heq])
  · rfl
  · rfl

/-- C9 witness: concrete instance with every attempt succeeding. -/
theorem c9_total_over_three_outcomes_witness :
    okOutcome (parse envOkEmpty 5).1 = true :=
  c9_total_over_three_outcomes envOkEmpty 5 (by decide)

/-- C9 counterexample: the claim says that whatever error the underlying
fetch raises is either retried as transient or surfaced as FetchFailed.  An
attempt that raises any exception other than `ConnectionError` or `Timeout`
(for example `requests.exceptions.TooManyRedirects`) escapes `parse`
uncaught: no outcome value is returned. -/
theorem c9_other_exceptions_escape_counterexample :
    (parse envRaise 3).1 = Except.error "TooManyRedirects" := rfl

/-- C10: `cert_list.count(False)` counts exactly the FetchFailed outcomes:
under Python equality the sentinel `False` equals itself, while `None`
(NotFound) and a `student_dict` (Found) never compare equal to `False`, so
the failed counter is the number of FetchFailed elements and Found/NotFound
items are never counted. -/
theorem c10_count_false_counts_fetchFailed (xs : List ItemOutcome)
    (d : StudentRecord) :
    countFalse xs = (xs.filter isFetchFailedB).length ∧
    pyEqFalse (ItemOutcome.found d) = false ∧
    pyEqFalse ItemOutcome.notFound = false ∧
    pyEqFalse ItemOutcome.fetchFailed = true := by
  refine ⟨?_, rfl, rfl, rfl⟩
  unfold countFalse
  congr 1
  apply List.filter_congr
  intro o _
  cases o <;> rfl

end CertificateParser
